import Mathlib

/-!
Verification of the session/state synchronization engine of the
`apps/react-native` app-store module (`app-store.tsx`).

The definitions below are a shallow embedding of the TypeScript source:
JavaScript strings become `String`, JS numbers used as timestamps become
`Int`, nullable/optional values become `Option`, and the JS `trim()`
operation is modelled as dropping whitespace characters from both ends of
the character list.
-/

namespace OpenClaw

/-! ### JS string helpers -/

/-- Whitespace predicate used by the JS `String.prototype.trim` model. -/
def jsWhitespace (c : Char) : Bool := c.isWhitespace

/-- Drop whitespace from both ends of a character list. -/
def trimChars (l : List Char) : List Char :=
  (l.dropWhile jsWhitespace).rdropWhile jsWhitespace

/-- Model of the JS `trim()` call on strings. -/
def jsTrim (s : String) : String := String.mk (trimChars s.data)

theorem dropWhile_head_false (l : List Char) (b : Char) (bs : List Char)
    (h : l.dropWhile jsWhitespace = b :: bs) : jsWhitespace b = false := by
  induction l with
  | nil => simp [List.dropWhile] at h
  | cons a t ih =>
    rw [List.dropWhile_cons] at h
    by_cases ha : jsWhitespace a
    · simp only [ha, if_true] at h
      exact ih h
    · simp only [ha, if_false] at h
      simp only [Bool.not_eq_true] at ha
      obtain ⟨h1, -⟩ := List.cons.inj h
      exact h1 ▸ ha

theorem trimChars_dropWhile_eq_self (l : List Char) :
    (trimChars l).dropWhile jsWhitespace = trimChars l := by
  rcases heq : trimChars l with _ | ⟨b, bs⟩
  · simp
  · have hsuf : (trimChars l).reverse <:+ (l.dropWhile jsWhitespace).reverse := by
      have hrev : (trimChars l).reverse =
          ((l.dropWhile jsWhitespace).reverse).dropWhile jsWhitespace := by
        simp [trimChars, List.rdropWhile]
      rw [hrev]
      exact List.dropWhile_suffix _
    obtain ⟨t, ht⟩ := hsuf
    have hdecomp : l.dropWhile jsWhitespace = b :: (bs ++ t.reverse) := by
      have h2 := congrArg List.reverse ht
      simp only [List.reverse_append, List.reverse_reverse, heq] at h2
      simpa using h2.symm
    have hb : jsWhitespace b = false := dropWhile_head_false l b (bs ++ t.reverse) hdecomp
    simp [List.dropWhile_cons, hb]

theorem trimChars_idem (l : List Char) : trimChars (trimChars l) = trimChars l := by
  conv_lhs => rw [trimChars, trimChars_dropWhile_eq_self]
  rw [trimChars, List.rdropWhile_idempotent]

theorem jsTrim_idem (s : String) : jsTrim (jsTrim s) = jsTrim s := by
  simp only [jsTrim]
  exact congrArg String.mk (trimChars_idem s.data)

/-! ### Session key normalizer (`normalizeSessionKeyForDefaults`, `sessionKeysMatch`) -/

/-- `SessionDefaults` record parsed from the gateway hello payload. -/
structure SessionDefaults where
  defaultAgentId : String
  mainKey : String
  mainSessionKey : String
  scope : Option String
deriving DecidableEq

/-- Embedding of `normalizeSessionKeyForDefaults`.  The source trims the input,
returns it unchanged when it is empty or when `defaults?.mainSessionKey` is
falsy (defaults absent, or `mainSessionKey` the empty string), and otherwise
maps the four alias spellings to `mainSessionKey`.  In the absent-defaults case
every branch returns the trimmed input, so that case collapses to `jsTrim`. -/
def normalizeSessionKeyForDefaults : String → Option SessionDefaults → String
  | value, none => jsTrim value
  | value, some d =>
    if jsTrim value = "" then jsTrim value
    else if d.mainSessionKey = "" then jsTrim value
    else if jsTrim value = "main" ∨ jsTrim value = d.mainKey ∨
        jsTrim value = "agent:" ++ d.defaultAgentId ++ ":main" ∨
        jsTrim value = "agent:" ++ d.defaultAgentId ++ ":" ++ d.mainKey
      then d.mainSessionKey
      else jsTrim value

/-- Embedding of `sessionKeysMatch`: equal normalized forms match; with no
defaults the bootstrap alias pair `main` / `agent:main:main` also matches. -/
def sessionKeysMatch (left right : String) (defaults : Option SessionDefaults) : Bool :=
  if normalizeSessionKeyForDefaults left defaults = normalizeSessionKeyForDefaults right defaults
  then true
  else
    match defaults with
    | some _ => false
    | none =>
      decide ((normalizeSessionKeyForDefaults left defaults = "main" ∧
               normalizeSessionKeyForDefaults right defaults = "agent:main:main") ∨
              (normalizeSessionKeyForDefaults left defaults = "agent:main:main" ∧
               normalizeSessionKeyForDefaults right defaults = "main"))

theorem jsTrim_empty : jsTrim "" = "" := by decide

theorem normalize_none (k : String) :
    normalizeSessionKeyForDefaults k none = jsTrim k := rfl

theorem normalize_empty (d : Option SessionDefaults) :
    normalizeSessionKeyForDefaults "" d = "" := by
  cases d <;> simp [normalizeSessionKeyForDefaults, jsTrim_empty]

/-- C8: the session-key match relation is symmetric in its two key arguments,
for every defaults value (present or absent). -/
theorem sessionKeysMatch_symm (a b : String) (d : Option SessionDefaults) :
    sessionKeysMatch a b d = sessionKeysMatch b a d := by
  unfold sessionKeysMatch
  by_cases h : normalizeSessionKeyForDefaults a d = normalizeSessionKeyForDefaults b d
  · rw [if_pos h, if_pos h.symm]
  · rw [if_neg h, if_neg (fun hh => h hh.symm)]
    cases d with
    | some dd => rfl
    | none =>
      rw [decide_eq_decide]
      tauto

/-- C9 counterexample: normalization is not idempotent for arbitrary defaults.
With `mainSessionKey = " canonical "` (not trim-stable), normalizing the alias
`main` yields `" canonical "`, and normalizing that again trims it to
`"canonical"`. -/
theorem normalize_idempotent_counterexample :
    normalizeSessionKeyForDefaults
        (normalizeSessionKeyForDefaults "main" (some ⟨"agent", "key", " canonical ", none⟩))
        (some ⟨"agent", "key", " canonical ", none⟩) ≠
      normalizeSessionKeyForDefaults "main" (some ⟨"agent", "key", " canonical ", none⟩) := by
  decide

/-- C9 (amended): session-key normalization is idempotent for every key,
provided the defaults' `mainSessionKey` is trim-stable (as every value produced
by `parseSessionDefaults` is, since it trims all fields). -/
theorem normalize_idempotent (k : String) (d : Option SessionDefaults)
    (hd : match d with
          | none => True
          | some dd => jsTrim dd.mainSessionKey = dd.mainSessionKey) :
    normalizeSessionKeyForDefaults (normalizeSessionKeyForDefaults k d) d =
      normalizeSessionKeyForDefaults k d := by
  cases d with
  | none =>
    rw [normalize_none, normalize_none, jsTrim_idem]
  | some dd =>
    by_cases h1 : jsTrim k = ""
    · have hr : normalizeSessionKeyForDefaults k (some dd) = jsTrim k := by
        simp only [normalizeSessionKeyForDefaults, if_pos h1]
      rw [hr, h1, normalize_empty]
    · by_cases h2 : dd.mainSessionKey = ""
      · have hr : normalizeSessionKeyForDefaults k (some dd) = jsTrim k := by
          simp only [normalizeSessionKeyForDefaults, if_neg h1, if_pos h2]
        rw [hr]
        simp only [normalizeSessionKeyForDefaults, jsTrim_idem, if_neg h1, if_pos h2]
      · by_cases h3 : jsTrim k = "main" ∨ jsTrim k = dd.mainKey ∨
            jsTrim k = "agent:" ++ dd.defaultAgentId ++ ":main" ∨
            jsTrim k = "agent:" ++ dd.defaultAgentId ++ ":" ++ dd.mainKey
        · have hr : normalizeSessionKeyForDefaults k (some dd) = dd.mainSessionKey := by
            simp only [normalizeSessionKeyForDefaults, if_neg h1, if_neg h2, if_pos h3]
          have hmt : jsTrim dd.mainSessionKey = dd.mainSessionKey := hd
          rw [hr]
          simp only [normalizeSessionKeyForDefaults, hmt, if_neg h2]
          split <;> rfl
        · have hr : normalizeSessionKeyForDefaults k (some dd) = jsTrim k := by
            simp only [normalizeSessionKeyForDefaults, if_neg h1, if_neg h2, if_neg h3]
          rw [hr]
          simp only [normalizeSessionKeyForDefaults, jsTrim_idem, if_neg h1, if_neg h2, if_neg h3]

/-- C9 witness: the amended idempotence theorem applied at a concrete key and
trim-stable defaults. -/
theorem normalize_idempotent_witness :
    jsTrim ("canonical" : String) = "canonical" ∧
      normalizeSessionKeyForDefaults
          (normalizeSessionKeyForDefaults "main" (some ⟨"agent", "key", "canonical", none⟩))
          (some ⟨"agent", "key", "canonical", none⟩) =
        normalizeSessionKeyForDefaults "main" (some ⟨"agent", "key", "canonical", none⟩) :=
  ⟨by decide, normalize_idempotent "main" (some ⟨"agent", "key", "canonical", none⟩) (by decide)⟩

/-! ### Decimal rendering of timestamps (JS template-literal number-to-string) -/

/-- Character for a single decimal digit, as produced by JS number printing. -/
def decimalDigitChar (d : Nat) : Char := Char.ofNat (48 + d)

/-- Decimal digit characters of a natural number, most significant first. -/
def natDecimalDigits (n : Nat) : List Char :=
  if _h : n < 10 then [decimalDigitChar n]
  else natDecimalDigits (n / 10) ++ [decimalDigitChar (n % 10)]
decreasing_by exact Nat.div_lt_self (by omega) (by omega)

/-- Model of JS `${x}` stringification of an integer timestamp. -/
def intToDecimalString (i : Int) : String :=
  if i < 0 then String.mk ('-' :: natDecimalDigits i.natAbs)
  else String.mk (natDecimalDigits i.natAbs)

theorem natDecimalDigits_def (n : Nat) :
    natDecimalDigits n =
      if n < 10 then [decimalDigitChar n]
      else natDecimalDigits (n / 10) ++ [decimalDigitChar (n % 10)] := by
  rw [natDecimalDigits]
  by_cases h : n < 10 <;> simp [h]

theorem natDecimalDigits_ne_nil (n : Nat) : natDecimalDigits n ≠ [] := by
  rw [natDecimalDigits_def]
  split <;> simp

theorem decimalDigitChar_inj :
    ∀ a < 10, ∀ b < 10, decimalDigitChar a = decimalDigitChar b → a = b := by
  decide

theorem natDecimalDigits_mem_digit (n : Nat) :
    ∀ c ∈ natDecimalDigits n, ∃ d, d < 10 ∧ c = decimalDigitChar d := by
  induction n using Nat.strong_induction_on with
  | _ n ih =>
    intro c hc
    rw [natDecimalDigits_def] at hc
    split at hc
    · refine ⟨n, by omega, ?_⟩
      simpa using hc
    · rename_i hn
      rw [List.mem_append] at hc
      rcases hc with hc | hc
      · exact ih (n / 10) (Nat.div_lt_self (by omega) (by omega)) c hc
      · exact ⟨n % 10, Nat.mod_lt _ (by omega), by simpa using hc⟩

theorem natDecimalDigits_inj : ∀ m n : Nat, natDecimalDigits m = natDecimalDigits n → m = n := by
  intro m
  induction m using Nat.strong_induction_on with
  | _ m ih =>
    intro n h
    rw [natDecimalDigits_def m, natDecimalDigits_def n] at h
    by_cases hm : m < 10 <;> by_cases hn : n < 10
    · rw [if_pos hm, if_pos hn] at h
      exact decimalDigitChar_inj m hm n hn (by simpa using h)
    · rw [if_pos hm, if_neg hn] at h
      have hlen := congrArg List.length h
      simp only [List.length_append, List.length_cons, List.length_nil] at hlen
      have h0 : (natDecimalDigits (n / 10)).length = 0 := by omega
      rw [List.length_eq_zero] at h0
      exact absurd h0 (natDecimalDigits_ne_nil (n / 10))
    · rw [if_neg hm, if_pos hn] at h
      have hlen := congrArg List.length h
      simp only [List.length_append, List.length_cons, List.length_nil] at hlen
      have h0 : (natDecimalDigits (m / 10)).length = 0 := by omega
      rw [List.length_eq_zero] at h0
      exact absurd h0 (natDecimalDigits_ne_nil (m / 10))
    · rw [if_neg hm, if_neg hn] at h
      have hparts := List.append_inj' h (by simp)
      obtain ⟨hq, hr⟩ := hparts
      have hq' : m / 10 = n / 10 :=
        ih (m / 10) (Nat.div_lt_self (by omega) (by omega)) (n / 10) hq
      have hr' : m % 10 = n % 10 :=
        decimalDigitChar_inj (m % 10) (Nat.mod_lt _ (by omega)) (n % 10)
          (Nat.mod_lt _ (by omega)) (by simpa using hr)
      omega

theorem dash_not_mem_natDecimalDigits (n : Nat) : '-' ∉ natDecimalDigits n := by
  intro hmem
  obtain ⟨d, hd, hc⟩ := natDecimalDigits_mem_digit n '-' hmem
  have : ∀ d' < 10, decimalDigitChar d' ≠ '-' := by decide
  exact this d hd hc.symm

theorem intToDecimalString_inj :
    ∀ i j : Int, intToDecimalString i = intToDecimalString j → i = j := by
  intro i j h
  unfold intToDecimalString at h
  by_cases hi : i < 0 <;> by_cases hj : j < 0
  · rw [if_pos hi, if_pos hj] at h
    have hlist := congrArg String.data h
    simp only [List.cons.injEq] at hlist
    have := natDecimalDigits_inj _ _ hlist.2
    omega
  · rw [if_pos hi, if_neg hj] at h
    have hlist := congrArg String.data h
    simp only at hlist
    have : '-' ∈ natDecimalDigits j.natAbs := by
      rw [← hlist]
      simp
    exact absurd this (dash_not_mem_natDecimalDigits _)
  · rw [if_neg hi, if_pos hj] at h
    have hlist := congrArg String.data h
    simp only at hlist
    have : '-' ∈ natDecimalDigits i.natAbs := by
      rw [hlist]
      simp
    exact absurd this (dash_not_mem_natDecimalDigits _)
  · rw [if_neg hi, if_neg hj] at h
    have hlist := congrArg String.data h
    simp only at hlist
    have := natDecimalDigits_inj _ _ hlist
    omega

/-! ### Chat messages and history deduplication (`dedupeChatMessages`) -/

/-- The `ChatRole` union type `'user' | 'assistant' | 'system'`. -/
inductive ChatRole where
  | user
  | assistant
  | system
deriving DecidableEq

/-- The string each role renders to inside a JS template literal. -/
def ChatRole.toText : ChatRole → String
  | .user => "user"
  | .assistant => "assistant"
  | .system => "system"

/-- The `ChatMessage` record.  Timestamps are JS numbers used as epoch
milliseconds, modelled as integers. -/
structure ChatMessage where
  id : String
  role : ChatRole
  text : String
  timestamp : Int
deriving DecidableEq

/-- The dedup key `` `${message.role}|${message.timestamp}|${text}` `` built
from the role, the raw timestamp and the trimmed text. -/
def msgKey (m : ChatMessage) : String :=
  m.role.toText ++ "|" ++ intToDecimalString m.timestamp ++ "|" ++ jsTrim m.text

/-- Loop of `dedupeChatMessages`: `seen` holds the keys of all kept messages,
`deduped` the kept messages in order. -/
def dedupeGo (seen : List String) (deduped : List ChatMessage) :
    List ChatMessage → List ChatMessage
  | [] => deduped
  | message :: rest =>
    if msgKey message ∈ seen then dedupeGo seen deduped rest
    else
      match deduped.getLast? with
      | some previous =>
        if message.role = previous.role ∧ message.role ≠ ChatRole.user ∧
            jsTrim message.text ≠ "" ∧ jsTrim message.text = jsTrim previous.text ∧
            (message.timestamp - previous.timestamp).natAbs ≤ 30000
        then dedupeGo seen deduped rest
        else dedupeGo (msgKey message :: seen) (deduped ++ [message]) rest
      | none => dedupeGo (msgKey message :: seen) (deduped ++ [message]) rest

/-- Embedding of `dedupeChatMessages`. -/
def dedupeChatMessages (messages : List ChatMessage) : List ChatMessage :=
  dedupeGo [] [] messages

theorem msgKey_ne_of_timestamp_ne (m1 m2 : ChatMessage) (hrole : m1.role = m2.role)
    (htext : jsTrim m1.text = jsTrim m2.text) (hts : m1.timestamp ≠ m2.timestamp) :
    msgKey m1 ≠ msgKey m2 := by
  intro h
  unfold msgKey at h
  rw [hrole, htext] at h
  have hdata := congrArg String.data h
  simp only [String.data_append, List.append_assoc, List.append_cancel_left_eq,
    List.append_cancel_right_eq] at hdata
  exact hts (intToDecimalString_inj _ _ (String.ext hdata))

theorem dedupeGo_pairwise_key (msgs : List ChatMessage) :
    ∀ (seen : List String) (deduped : List ChatMessage),
      (∀ m ∈ deduped, msgKey m ∈ seen) →
      deduped.Pairwise (fun a b => msgKey a ≠ msgKey b) →
      (dedupeGo seen deduped msgs).Pairwise (fun a b => msgKey a ≠ msgKey b) := by
  induction msgs with
  | nil =>
    intro seen dd _ hp
    simpa [dedupeGo] using hp
  | cons m rest ih =>
    intro seen dd hsub hp
    rw [dedupeGo]
    by_cases hk : msgKey m ∈ seen
    · rw [if_pos hk]
      exact ih seen dd hsub hp
    · rw [if_neg hk]
      have hstep : (dedupeGo (msgKey m :: seen) (dd ++ [m]) rest).Pairwise
          (fun a b => msgKey a ≠ msgKey b) := by
        apply ih
        · intro x hx
          rcases List.mem_append.mp hx with hx | hx
          · exact List.mem_cons_of_mem _ (hsub x hx)
          · simp only [List.mem_singleton] at hx
            subst hx
            exact List.mem_cons_self _ _
        · rw [List.pairwise_append]
          refine ⟨hp, List.pairwise_singleton _ _, ?_⟩
          intro a ha b hb
          simp only [List.mem_singleton] at hb
          subst hb
          intro hEq
          exact hk (hEq ▸ hsub a ha)
      cases hlast : dd.getLast? with
      | none => exact hstep
      | some previous =>
        show List.Pairwise (fun a b => msgKey a ≠ msgKey b)
          (if m.role = previous.role ∧ m.role ≠ ChatRole.user ∧
              jsTrim m.text ≠ "" ∧ jsTrim m.text = jsTrim previous.text ∧
              (m.timestamp - previous.timestamp).natAbs ≤ 30000
            then dedupeGo seen dd rest
            else dedupeGo (msgKey m :: seen) (dd ++ [m]) rest)
        by_cases hc : m.role = previous.role ∧ m.role ≠ ChatRole.user ∧
            jsTrim m.text ≠ "" ∧ jsTrim m.text = jsTrim previous.text ∧
            (m.timestamp - previous.timestamp).natAbs ≤ 30000
        · rw [if_pos hc]
          exact ih seen dd hsub hp
        · rw [if_neg hc]
          exact hstep

/-- C6: over `dedupeChatMessages`, two consecutive records with equal non-user
role and equal non-empty trimmed text are collapsed to one when their
timestamps are 29000 ms apart, kept as two when 31000 ms apart, and the
output never contains two records with the same `role|timestamp|trimmedText`
key (exact duplicate keys are dropped regardless of adjacency). -/
theorem dedupe_near_duplicate_window :
    (∀ m1 m2 : ChatMessage, m1.role = m2.role → m1.role ≠ ChatRole.user →
        jsTrim m2.text ≠ "" → jsTrim m2.text = jsTrim m1.text →
        m2.timestamp = m1.timestamp + 29000 →
        dedupeChatMessages [m1, m2] = [m1]) ∧
    (∀ m1 m2 : ChatMessage, m1.role = m2.role → m1.role ≠ ChatRole.user →
        jsTrim m2.text ≠ "" → jsTrim m2.text = jsTrim m1.text →
        m2.timestamp = m1.timestamp + 31000 →
        dedupeChatMessages [m1, m2] = [m1, m2]) ∧
    (∀ messages : List ChatMessage,
        (dedupeChatMessages messages).Pairwise (fun a b => msgKey a ≠ msgKey b)) := by
  refine ⟨?_, ?_, ?_⟩
  · intro m1 m2 hrole huser hne htext hts
    unfold dedupeChatMessages
    rw [dedupeGo, if_neg (List.not_mem_nil _)]
    show dedupeGo [msgKey m1] [m1] [m2] = [m1]
    rw [dedupeGo]
    by_cases hk : msgKey m2 ∈ [msgKey m1]
    · rw [if_pos hk]
      rfl
    · rw [if_neg hk]
      show (if m2.role = m1.role ∧ m2.role ≠ ChatRole.user ∧
          jsTrim m2.text ≠ "" ∧ jsTrim m2.text = jsTrim m1.text ∧
          (m2.timestamp - m1.timestamp).natAbs ≤ 30000
        then dedupeGo [msgKey m1] [m1] []
        else dedupeGo (msgKey m2 :: [msgKey m1]) ([m1] ++ [m2]) []) = [m1]
      rw [if_pos ⟨hrole.symm, hrole ▸ huser, hne, htext, by omega⟩]
      rfl
  · intro m1 m2 hrole huser hne htext hts
    have hkne : msgKey m1 ≠ msgKey m2 :=
      msgKey_ne_of_timestamp_ne m1 m2 hrole htext.symm (by omega)
    unfold dedupeChatMessages
    rw [dedupeGo, if_neg (List.not_mem_nil _)]
    show dedupeGo [msgKey m1] [m1] [m2] = [m1, m2]
    rw [dedupeGo]
    rw [if_neg (by simp only [List.mem_singleton]; exact fun hh => hkne hh.symm)]
    show (if m2.role = m1.role ∧ m2.role ≠ ChatRole.user ∧
        jsTrim m2.text ≠ "" ∧ jsTrim m2.text = jsTrim m1.text ∧
        (m2.timestamp - m1.timestamp).natAbs ≤ 30000
      then dedupeGo [msgKey m1] [m1] []
      else dedupeGo (msgKey m2 :: [msgKey m1]) ([m1] ++ [m2]) []) = [m1, m2]
    rw [if_neg (fun hcond => by have := hcond.2.2.2.2; omega)]
    rfl
  · intro messages
    exact dedupeGo_pairwise_key messages [] [] (by simp) (List.Pairwise.nil)

/-- C6 witness: the window theorem applied at concrete assistant messages with
timestamps 1000/30000 (collapsed) and 1000/32000 (kept). -/
theorem dedupe_near_duplicate_window_witness :
    dedupeChatMessages
        [⟨"a", ChatRole.assistant, "hi", 1000⟩, ⟨"b", ChatRole.assistant, "hi", 30000⟩] =
      [⟨"a", ChatRole.assistant, "hi", 1000⟩] ∧
    dedupeChatMessages
        [⟨"a", ChatRole.assistant, "hi", 1000⟩, ⟨"c", ChatRole.assistant, "hi", 32000⟩] =
      [⟨"a", ChatRole.assistant, "hi", 1000⟩, ⟨"c", ChatRole.assistant, "hi", 32000⟩] :=
  ⟨dedupe_near_duplicate_window.1 ⟨"a", ChatRole.assistant, "hi", 1000⟩
      ⟨"b", ChatRole.assistant, "hi", 30000⟩ rfl (by decide) (by decide) rfl (by decide),
    dedupe_near_duplicate_window.2.1 ⟨"a", ChatRole.assistant, "hi", 1000⟩
      ⟨"c", ChatRole.assistant, "hi", 32000⟩ rfl (by decide) (by decide) rfl (by decide)⟩

/-! ### Message-object text extraction (`extractTextFromMessageObject`) -/

/-- One entry of a content-chunk array.  `none` in the surrounding list models
a non-object (or nullish) entry; a chunk's `text` field is `some` exactly when
it is a JS string. -/
structure ContentChunk where
  type : Option String
  text : Option String
deriving DecidableEq

/-- The `content` field of a message object: a JS string, an array of chunks,
or anything else (including absent). -/
inductive ContentField where
  | str (s : String)
  | arr (entries : List (Option ContentChunk))
  | other
deriving DecidableEq

/-- A loosely-typed message object as consumed by
`extractTextFromMessageObject`. -/
structure MessageObject where
  content : ContentField
  text : Option String
  errorMessage : Option String
deriving DecidableEq

/-- Fallback of `extractTextFromMessageObject` once the `content` field has
been exhausted: a string `text` field, else a non-empty trimmed `errorMessage`
surfaced with an `Error: ` prefix (not duplicated, case-insensitively). -/
def extractFallbackText (item : MessageObject) : String :=
  match item.text with
  | some t => t
  | none =>
    match item.errorMessage with
    | some e =>
      if jsTrim e ≠ "" then
        if (jsTrim e).toLower.startsWith "error:" then jsTrim e else "Error: " ++ jsTrim e
      else ""
    | none => ""

/-- Embedding of `extractTextFromMessageObject`.  The source's two chunk
branches (`type === 'text'` with string `text`, or any object with string
`text`) both return the chunk's `text`, so they collapse to one test. -/
def extractTextFromMessageObject (item : MessageObject) : String :=
  match item.content with
  | .str s => s
  | .arr entries =>
    let chunks := entries.filterMap (fun entry =>
      match entry with
      | none => none
      | some candidate =>
        match candidate.text with
        | some t => if t.length > 0 then some t else none
        | none => none)
    if chunks.length > 0 then String.intercalate "\n" chunks
    else extractFallbackText item
  | .other => extractFallbackText item

/-! ### Application state and the chat-run event reducer (`applyChatEvent`) -/

/-- The persisted gateway connection configuration. -/
structure GatewayConfigState where
  host : String
  port : String
  tls : Bool
  token : String
  password : String
  setupCode : String
deriving DecidableEq

/-- The aggregate `AppState`.  The connection phase is kept as its wire
string; nullable fields are `Option`. -/
structure AppState where
  phase : String
  statusText : String
  chatError : Option String
  gatewayConfig : GatewayConfigState
  sessionDefaults : Option SessionDefaults
  sessionKey : String
  sessionOptions : List String
  modelOptions : List String
  selectedModel : Option String
  chatMessages : List ChatMessage
  chatStream : String
  chatLoading : Bool
  chatSending : Bool
  chatRunId : Option String
  talkEnabled : Bool
  voiceWakeEnabled : Bool
  cameraEnabled : Bool
  locationEnabled : Bool
  reconnectOnLaunch : Bool
  rawEvents : List String
deriving DecidableEq

/-- A gateway chat event payload `{sessionKey, runId?, state, message?,
errorMessage?}`.  `state` is kept as a string so that payloads outside the
four documented values fall through exactly as in the source. -/
structure GatewayChatEventPayload where
  sessionKey : String
  runId : Option String
  state : String
  message : Option MessageObject
  errorMessage : Option String
deriving DecidableEq

/-- JS truthiness of a nullable string: present and non-empty. -/
def jsTruthy : Option String → Bool
  | none => false
  | some s => decide (s ≠ "")

/-- The foreign-run test `Boolean(payload.runId && state.chatRunId &&
payload.runId !== state.chatRunId)`. -/
def isForeignRun (payloadRunId stateRunId : Option String) : Bool :=
  jsTruthy payloadRunId && jsTruthy stateRunId && decide (payloadRunId ≠ stateRunId)

/-- Embedding of `applyChatEvent`. -/
def applyChatEvent (state : AppState) (payload : GatewayChatEventPayload) : AppState :=
  if sessionKeysMatch payload.sessionKey state.sessionKey state.sessionDefaults = false then
    state
  else if payload.state = "delta" then
    if isForeignRun payload.runId state.chatRunId then state
    else
      { state with
        chatStream :=
          match payload.message with
          | some m =>
            if extractTextFromMessageObject m = "" then state.chatStream
            else extractTextFromMessageObject m
          | none => state.chatStream,
        chatError := none }
  else if payload.state = "final" then
    if isForeignRun payload.runId state.chatRunId then
      { state with chatError := none }
    else
      { state with chatStream := "", chatRunId := none, chatSending := false, chatError := none }
  else if payload.state = "aborted" then
    if isForeignRun payload.runId state.chatRunId then state
    else
      { state with chatStream := "", chatRunId := none, chatSending := false, chatError := none }
  else if payload.state = "error" then
    if isForeignRun payload.runId state.chatRunId then state
    else
      { state with
        chatStream := "",
        chatRunId := none,
        chatSending := false,
        statusText := payload.errorMessage.getD "Chat error",
        chatError := some (payload.errorMessage.getD "Chat error") }
  else state

/-- A concrete state used by witnesses and counterexamples: connected, with an
in-flight run `run-1`, a pending chat error, and current session `alpha`. -/
def sampleState : AppState where
  phase := "connected"
  statusText := "Ready"
  chatError := some "oops"
  gatewayConfig := ⟨"127.0.0.1", "18789", false, "", "", ""⟩
  sessionDefaults := none
  sessionKey := "alpha"
  sessionOptions := ["alpha"]
  modelOptions := []
  selectedModel := none
  chatMessages := []
  chatStream := "partial"
  chatLoading := false
  chatSending := true
  chatRunId := some "run-1"
  talkEnabled := false
  voiceWakeEnabled := false
  cameraEnabled := true
  locationEnabled := false
  reconnectOnLaunch := true
  rawEvents := []

/-- C2: a chat event whose session key does not match the current session key
(per the match relation, under the state's defaults) leaves the state
unchanged, whatever its `state`, `runId`, `message`, or `errorMessage`. -/
theorem applyChatEvent_session_mismatch (st : AppState) (p : GatewayChatEventPayload)
    (h : sessionKeysMatch p.sessionKey st.sessionKey st.sessionDefaults = false) :
    applyChatEvent st p = st := by
  unfold applyChatEvent
  rw [if_pos h]

/-- C2 witness: a `final` payload for session `beta` is ignored while the
current session is `alpha`. -/
theorem applyChatEvent_session_mismatch_witness :
    sessionKeysMatch "beta" "alpha" none = false ∧
      applyChatEvent sampleState ⟨"beta", some "run-2", "final", none, none⟩ = sampleState :=
  ⟨by decide,
    applyChatEvent_session_mismatch sampleState ⟨"beta", some "run-2", "final", none, none⟩
      (by decide)⟩

/-- C1 counterexample: a foreign `final` event is not dropped outright — it
clears `chatError`.  With `chatError = some "oops"` and a foreign run id the
result differs from the input state. -/
theorem applyChatEvent_foreign_counterexample :
    applyChatEvent sampleState ⟨"alpha", some "run-2", "final", none, none⟩ ≠ sampleState := by
  decide

/-- C1 (amended): for a session-matching foreign-run event, `delta`, `aborted`
and `error` payloads leave the state completely unchanged, while a `final`
payload changes nothing except clearing `chatError`. -/
theorem applyChatEvent_foreign_drop (st : AppState) (p : GatewayChatEventPayload)
    (hmatch : sessionKeysMatch p.sessionKey st.sessionKey st.sessionDefaults = true)
    (hforeign : isForeignRun p.runId st.chatRunId = true) :
    ((p.state = "delta" ∨ p.state = "aborted" ∨ p.state = "error") →
        applyChatEvent st p = st) ∧
    (p.state = "final" → applyChatEvent st p = { st with chatError := none }) := by
  have hsm : ¬ sessionKeysMatch p.sessionKey st.sessionKey st.sessionDefaults = false := by
    rw [hmatch]
    simp
  constructor
  · rintro (hs | hs | hs)
    · unfold applyChatEvent
      rw [if_neg hsm, if_pos hs, if_pos hforeign]
    · have h1 : ¬ p.state = "delta" := by rw [hs]; decide
      have h2 : ¬ p.state = "final" := by rw [hs]; decide
      unfold applyChatEvent
      rw [if_neg hsm, if_neg h1, if_neg h2, if_pos hs, if_pos hforeign]
    · have h1 : ¬ p.state = "delta" := by rw [hs]; decide
      have h2 : ¬ p.state = "final" := by rw [hs]; decide
      have h3 : ¬ p.state = "aborted" := by rw [hs]; decide
      unfold applyChatEvent
      rw [if_neg hsm, if_neg h1, if_neg h2, if_neg h3, if_pos hs, if_pos hforeign]
  · intro hs
    have h1 : ¬ p.state = "delta" := by rw [hs]; decide
    unfold applyChatEvent
    rw [if_neg hsm, if_neg h1, if_pos hs, if_pos hforeign]

/-- C1 witness: the amended foreign-event theorem applied to a foreign `delta`
payload on the sample state. -/
theorem applyChatEvent_foreign_drop_witness :
    sessionKeysMatch "alpha" "alpha" none = true ∧
      isForeignRun (some "run-2") (some "run-1") = true ∧
      applyChatEvent sampleState ⟨"alpha", some "run-2", "delta", none, none⟩ = sampleState :=
  ⟨by decide, by decide,
    (applyChatEvent_foreign_drop sampleState ⟨"alpha", some "run-2", "delta", none, none⟩
        (by decide) (by decide)).1 (Or.inl rfl)⟩

/-- C4: a session-matching event carrying a set `runId` that differs from the
set current `chatRunId` never changes `chatStream` or `chatRunId`, whatever
its `state` value. -/
theorem applyChatEvent_foreign_run_frame (st : AppState) (p : GatewayChatEventPayload)
    (hmatch : sessionKeysMatch p.sessionKey st.sessionKey st.sessionDefaults = true)
    (hforeign : isForeignRun p.runId st.chatRunId = true) :
    (applyChatEvent st p).chatStream = st.chatStream ∧
    (applyChatEvent st p).chatRunId = st.chatRunId := by
  have hsm : ¬ sessionKeysMatch p.sessionKey st.sessionKey st.sessionDefaults = false := by
    rw [hmatch]
    simp
  unfold applyChatEvent
  rw [if_neg hsm]
  by_cases h1 : p.state = "delta"
  · rw [if_pos h1, if_pos hforeign]
    exact ⟨rfl, rfl⟩
  · rw [if_neg h1]
    by_cases h2 : p.state = "final"
    · rw [if_pos h2, if_pos hforeign]
      exact ⟨rfl, rfl⟩
    · rw [if_neg h2]
      by_cases h3 : p.state = "aborted"
      · rw [if_pos h3, if_pos hforeign]
        exact ⟨rfl, rfl⟩
      · rw [if_neg h3]
        by_cases h4 : p.state = "error"
        · rw [if_pos h4, if_pos hforeign]
          exact ⟨rfl, rfl⟩
        · rw [if_neg h4]
          exact ⟨rfl, rfl⟩

/-- C4 witness: a foreign `error` payload leaves `chatStream` and `chatRunId`
of the sample state untouched. -/
theorem applyChatEvent_foreign_run_frame_witness :
    sessionKeysMatch "alpha" "alpha" none = true ∧
      isForeignRun (some "run-2") (some "run-1") = true ∧
      (applyChatEvent sampleState ⟨"alpha", some "run-2", "error", none, some "boom"⟩).chatStream =
        sampleState.chatStream ∧
      (applyChatEvent sampleState ⟨"alpha", some "run-2", "error", none, some "boom"⟩).chatRunId =
        sampleState.chatRunId := by
  refine ⟨by decide, by decide, ?_, ?_⟩
  · exact (applyChatEvent_foreign_run_frame sampleState
      ⟨"alpha", some "run-2", "error", none, some "boom"⟩ (by decide) (by decide)).1
  · exact (applyChatEvent_foreign_run_frame sampleState
      ⟨"alpha", some "run-2", "error", none, some "boom"⟩ (by decide) (by decide)).2

/-- C10: `applyChatEvent` touches at most `chatStream`, `chatRunId`,
`chatSending`, `chatError` and `statusText`; every other field is returned
unchanged, and a payload whose `state` is outside the four documented values
leaves the whole state unchanged. -/
theorem applyChatEvent_frame (st : AppState) (p : GatewayChatEventPayload) :
    (applyChatEvent st p).chatMessages = st.chatMessages ∧
    (applyChatEvent st p).sessionKey = st.sessionKey ∧
    (applyChatEvent st p).sessionOptions = st.sessionOptions ∧
    (applyChatEvent st p).sessionDefaults = st.sessionDefaults ∧
    (applyChatEvent st p).gatewayConfig = st.gatewayConfig ∧
    (applyChatEvent st p).modelOptions = st.modelOptions ∧
    (applyChatEvent st p).selectedModel = st.selectedModel ∧
    (applyChatEvent st p).phase = st.phase ∧
    (applyChatEvent st p).talkEnabled = st.talkEnabled ∧
    (applyChatEvent st p).voiceWakeEnabled = st.voiceWakeEnabled ∧
    (applyChatEvent st p).cameraEnabled = st.cameraEnabled ∧
    (applyChatEvent st p).locationEnabled = st.locationEnabled ∧
    (applyChatEvent st p).reconnectOnLaunch = st.reconnectOnLaunch ∧
    (applyChatEvent st p).rawEvents = st.rawEvents ∧
    (applyChatEvent st p).chatLoading = st.chatLoading ∧
    (p.state ≠ "delta" → p.state ≠ "final" → p.state ≠ "aborted" → p.state ≠ "error" →
      applyChatEvent st p = st) := by
  unfold applyChatEvent
  repeat' split
  all_goals
    refine ⟨rfl, rfl, rfl, rfl, rfl, rfl, rfl, rfl, rfl, rfl, rfl, rfl, rfl, rfl, rfl,
      fun h1 h2 h3 h4 => ?_⟩
  all_goals first | rfl | simp_all

/-- C10 witness: the frame theorem applied to a payload with the unknown state
`bogus`, which leaves the sample state entirely unchanged. -/
theorem applyChatEvent_frame_witness :
    applyChatEvent sampleState ⟨"alpha", some "run-1", "bogus", none, none⟩ = sampleState :=
  (applyChatEvent_frame sampleState
      ⟨"alpha", some "run-1", "bogus", none, none⟩).2.2.2.2.2.2.2.2.2.2.2.2.2.2.2
    (by decide) (by decide) (by decide) (by decide)

/-! ### Capability toggles (`setTalkEnabled`, `buildCapabilityConfig`) -/

/-- The capability snapshot sent to `reconnectWithCapabilities`. -/
structure CapabilityConfig where
  cameraEnabled : Bool
  locationEnabled : Bool
  voiceWakeEnabled : Bool
  talkEnabled : Bool
deriving DecidableEq

/-- Embedding of `buildCapabilityConfig`. -/
def buildCapabilityConfig (state : AppState) : CapabilityConfig where
  cameraEnabled := state.cameraEnabled
  locationEnabled := state.locationEnabled
  voiceWakeEnabled := state.voiceWakeEnabled
  talkEnabled := state.talkEnabled

/-- Outcome of an awaited request: fulfilled, or rejected with the normalized
error message. -/
inductive RequestResult where
  | ok
  | err (message : String)
deriving DecidableEq

/-- Observable result of one `setTalkEnabled` action: the state it leaves
behind and the list of `reconnectWithCapabilities` calls it made. -/
structure TalkToggleRun where
  finalState : AppState
  reconnectCalls : List CapabilityConfig
deriving DecidableEq

/-- Embedding of the `setTalkEnabled` action.  The flag flips optimistically;
with no operator client the action stops there.  Otherwise the `talk.mode`
request runs first: if it rejects, the `catch` sets `statusText` and the
reconnect call (later in the same `try`) never happens; if it fulfills, the
reconnect runs with a snapshot whose `talkEnabled` is overridden to the
requested value, and a reconnect rejection also just sets `statusText`.
`stateRef.current` at the reconnect is the optimistically updated state (the
sequential, no-interleaving execution). -/
def setTalkEnabled (state : AppState) (enabled : Bool) (clientAvailable : Bool)
    (talkModeResult reconnectResult : RequestResult) : TalkToggleRun :=
  let optimistic : AppState := { state with talkEnabled := enabled }
  if clientAvailable = false then ⟨optimistic, []⟩
  else
    match talkModeResult with
    | .err m => ⟨{ optimistic with statusText := m }, []⟩
    | .ok =>
      let cfg := buildCapabilityConfig { optimistic with talkEnabled := enabled }
      match reconnectResult with
      | .ok => ⟨optimistic, [cfg]⟩
      | .err m => ⟨{ optimistic with statusText := m }, [cfg]⟩

/-- C3 counterexample: when the `talk.mode` request fails, the local flag is
flipped and the failure becomes the status text, but `reconnectWithCapabilities`
is never invoked — the reconnect sits after the failing await inside the same
`try`, so the claim's "reconnect still happens" part is false. -/
theorem setTalkEnabled_failure_counterexample :
    (setTalkEnabled sampleState true true (RequestResult.err "boom")
        RequestResult.ok).reconnectCalls = [] ∧
      (setTalkEnabled sampleState true true (RequestResult.err "boom")
          RequestResult.ok).finalState.talkEnabled = true ∧
      (setTalkEnabled sampleState true true (RequestResult.err "boom")
          RequestResult.ok).finalState.statusText = "boom" := by
  decide

/-- C3 (amended): with a client available, a failing `talk.mode` request still
leaves `talkEnabled` at the requested value and surfaces the failure as
`statusText`, without throwing, but suppresses the reconnect; a successful
`talk.mode` request leads to exactly one reconnect whose capability snapshot
carries the requested `talkEnabled`, even if the reconnect itself fails. -/
theorem setTalkEnabled_behavior (st : AppState) (enabled : Bool) (m : String)
    (r : RequestResult) :
    ((setTalkEnabled st enabled true (RequestResult.err m) r).finalState.talkEnabled = enabled ∧
     (setTalkEnabled st enabled true (RequestResult.err m) r).finalState.statusText = m ∧
     (setTalkEnabled st enabled true (RequestResult.err m) r).reconnectCalls = []) ∧
    ((setTalkEnabled st enabled true RequestResult.ok r).finalState.talkEnabled = enabled ∧
     (setTalkEnabled st enabled true RequestResult.ok r).reconnectCalls =
        [buildCapabilityConfig { st with talkEnabled := enabled }] ∧
     (buildCapabilityConfig { st with talkEnabled := enabled }).talkEnabled = enabled) := by
  cases r <;> exact ⟨⟨rfl, rfl, rfl⟩, rfl, rfl, rfl⟩

/-! ### Credential persistence (the config-change effect) -/

/-- Action taken on the secure store by one persistence pass. -/
inductive SecureStoreAction where
  | del
  | write (token password : String)
deriving DecidableEq

/-- Embedding of the post-hydration config-change persistence effect: the
plain-store payload is the config with `token`/`password`/`setupCode` zeroed,
and the secure store is deleted when both secrets are empty (JS falsy) and
otherwise written with exactly `{token, password}`. -/
def persistGatewayConfig (config : GatewayConfigState) : GatewayConfigState × SecureStoreAction :=
  ({ config with token := "", password := "", setupCode := "" },
    if config.token = "" ∧ config.password = "" then SecureStoreAction.del
    else SecureStoreAction.write config.token config.password)

/-- C7: each persistence pass writes a plain record keeping `host`/`port`/`tls`
with all three secret-bearing fields blanked, and either deletes the secure
record (both secrets empty) or writes exactly the token/password pair. -/
theorem persistGatewayConfig_partition (config : GatewayConfigState) :
    (persistGatewayConfig config).1.host = config.host ∧
    (persistGatewayConfig config).1.port = config.port ∧
    (persistGatewayConfig config).1.tls = config.tls ∧
    (persistGatewayConfig config).1.token = "" ∧
    (persistGatewayConfig config).1.password = "" ∧
    (persistGatewayConfig config).1.setupCode = "" ∧
    (config.token = "" ∧ config.password = "" →
      (persistGatewayConfig config).2 = SecureStoreAction.del) ∧
    (¬ (config.token = "" ∧ config.password = "") →
      (persistGatewayConfig config).2 = SecureStoreAction.write config.token config.password) := by
  refine ⟨rfl, rfl, rfl, rfl, rfl, rfl, fun h => ?_, fun h => ?_⟩
  · simp [persistGatewayConfig, h]
  · simp only [persistGatewayConfig, if_neg h]

/-- C7 witness: the partition theorem applied with both secrets empty (secure
record deleted) and with a token present (secure record written). -/
theorem persistGatewayConfig_partition_witness :
    (persistGatewayConfig ⟨"gw", "18789", true, "", "", "code"⟩).2 = SecureStoreAction.del ∧
      ¬ (("tok" : String) = "" ∧ ("" : String) = "") ∧
      (persistGatewayConfig ⟨"gw", "18789", true, "tok", "", "code"⟩).2 =
        SecureStoreAction.write "tok" "" :=
  ⟨(persistGatewayConfig_partition ⟨"gw", "18789", true, "", "", "code"⟩).2.2.2.2.2.2.1
      ⟨rfl, rfl⟩,
    by decide,
    (persistGatewayConfig_partition ⟨"gw", "18789", true, "tok", "", "code"⟩).2.2.2.2.2.2.2
      (by decide)⟩

/-! ### Session options and the store operations touching them -/

/-- Loop of `normalizeSessionOptions`: the `seen` set always holds exactly the
elements already pushed, so membership in the accumulator models it. -/
def normalizeSessionOptionsGo (defaults : Option SessionDefaults) (normalized : List String) :
    List String → List String
  | [] => normalized
  | option :: rest =>
    if normalizeSessionKeyForDefaults option defaults = "" ∨
        normalizeSessionKeyForDefaults option defaults ∈ normalized
    then normalizeSessionOptionsGo defaults normalized rest
    else
      normalizeSessionOptionsGo defaults
        (normalized ++ [normalizeSessionKeyForDefaults option defaults]) rest

/-- Embedding of `normalizeSessionOptions`: normalize each option, dropping
empty and duplicate results, first-seen order preserved. -/
def normalizeSessionOptions (options : List String) (defaults : Option SessionDefaults) :
    List String :=
  normalizeSessionOptionsGo defaults [] options

/-- One row of the `sessions.list` response; `none` fields model values that
are not strings on the wire. -/
structure SessionRow where
  key : Option String
  modelProvider : Option String
  model : Option String
deriving DecidableEq

/-- Embedding of `formatModelRef`. -/
def formatModelRef (provider model : Option String) : Option String :=
  if jsTrim (provider.getD "") = "" ∨ jsTrim (model.getD "") = "" then none
  else some (jsTrim (provider.getD "") ++ "/" ++ jsTrim (model.getD ""))

/-- The `initialState` constant; the welcome message's `Date.now()` timestamp
is a parameter. -/
def initialState (now : Int) : AppState where
  phase := "offline"
  statusText := "Offline"
  chatError := none
  gatewayConfig := ⟨"127.0.0.1", "18789", false, "", "", ""⟩
  sessionDefaults := none
  sessionKey := "main"
  sessionOptions := ["main"]
  modelOptions := []
  selectedModel := none
  chatMessages := [⟨"welcome", ChatRole.system, "Connect to a gateway to start chat.", now⟩]
  chatStream := ""
  chatLoading := false
  chatSending := false
  chatRunId := none
  talkEnabled := false
  voiceWakeEnabled := false
  cameraEnabled := true
  locationEnabled := false
  reconnectOnLaunch := true
  rawEvents := []

/-- Embedding of the `setSessionKey` action's state update
(`normalize(sessionKey.trim() || 'main', defaults) || 'main'`); it does not
touch `sessionOptions`. -/
def setSessionKeyUpdate (state : AppState) (sessionKey : String) : AppState :=
  { state with
    sessionKey :=
      if normalizeSessionKeyForDefaults
          (if jsTrim sessionKey = "" then "main" else jsTrim sessionKey)
          state.sessionDefaults = ""
      then "main"
      else
        normalizeSessionKeyForDefaults
          (if jsTrim sessionKey = "" then "main" else jsTrim sessionKey)
          state.sessionDefaults }

/-- Embedding of the `onHello` handler's state update after defaults parsed
successfully for an operator hello. -/
def onHelloUpdate (state : AppState) (defaults : SessionDefaults) : AppState :=
  let n := normalizeSessionKeyForDefaults state.sessionKey (some defaults)
  let nextSessionKey := if n = "" then state.sessionKey else n
  let normalizedOptions := normalizeSessionOptions state.sessionOptions (some defaults)
  let nextOptions :=
    if nextSessionKey ∈ normalizedOptions then normalizedOptions
    else nextSessionKey :: normalizedOptions
  { state with
    sessionDefaults := some defaults,
    sessionKey := nextSessionKey,
    sessionOptions := if nextOptions = [] then [nextSessionKey] else nextOptions }

/-- Embedding of the `refreshSessions` success update applied to the state,
given the server-reported session rows. -/
def refreshSessionsUpdate (state : AppState) (rows : List SessionRow) : AppState :=
  let options := (rows.map (fun row => row.key.getD "")).filter (fun k => k.length > 0)
  let normalized := normalizeSessionOptions options state.sessionDefaults
  let n := normalizeSessionKeyForDefaults state.sessionKey state.sessionDefaults
  let currentKey := if n = "" then state.sessionKey else n
  let candidate := if normalized = [] then state.sessionOptions else normalized
  let currentRow := rows.find? (fun row =>
    (row.key.getD "").length > 0 &&
      sessionKeysMatch (row.key.getD "") currentKey state.sessionDefaults)
  let currentModel :=
    match currentRow with
    | some row => formatModelRef row.modelProvider row.model
    | none => none
  { state with
    sessionKey := currentKey,
    sessionOptions := if currentKey ∈ candidate then candidate else currentKey :: candidate,
    selectedModel :=
      match currentModel with
      | some m => some m
      | none => state.selectedModel }

/-- States reachable through the operations that maintain the session-options
invariant: the initial state, the hello handler, and sessions refreshes. -/
inductive ReachableStore : AppState → Prop where
  | init (now : Int) : ReachableStore (initialState now)
  | hello {s : AppState} (d : SessionDefaults) :
      ReachableStore s → ReachableStore (onHelloUpdate s d)
  | refresh {s : AppState} (rows : List SessionRow) :
      ReachableStore s → ReachableStore (refreshSessionsUpdate s rows)

/-- C5 counterexample: `setSessionKey` rewrites `sessionKey` without touching
`sessionOptions`, so right after `setSessionKey "foo"` on the initial state the
current key (already canonical) is missing from the options — the invariant is
only restored by the subsequent asynchronous sessions refresh, which can fail
or find no client. -/
theorem setSessionKey_breaks_option_invariant :
    (setSessionKeyUpdate (initialState 0) "foo").sessionKey ∉
        (setSessionKeyUpdate (initialState 0) "foo").sessionOptions ∧
      normalizeSessionKeyForDefaults (setSessionKeyUpdate (initialState 0) "foo").sessionKey
          (setSessionKeyUpdate (initialState 0) "foo").sessionDefaults ∉
        (setSessionKeyUpdate (initialState 0) "foo").sessionOptions := by
  decide

/-- C5 (amended): in every state reachable via the initial state, the hello
handler, and sessions-refresh updates, `sessionOptions` contains the current
`sessionKey` (these operations insert it explicitly, even when the server list
omits it); `setSessionKey` is excluded because it leaves `sessionOptions`
untouched until the next refresh. -/
theorem sessionKey_mem_sessionOptions {s : AppState} (h : ReachableStore s) :
    s.sessionKey ∈ s.sessionOptions := by
  induction h with
  | init now => simp [initialState]
  | hello d _ _ =>
    simp only [onHelloUpdate]
    split_ifs with h1 h2 <;> simp_all
  | refresh rows _ _ =>
    simp only [refreshSessionsUpdate]
    split_ifs with h1 h2 <;> simp_all

/-- C5 witness: the invariant theorem applied to the initial state. -/
theorem sessionKey_mem_sessionOptions_witness :
    ReachableStore (initialState 0) ∧
      (initialState 0).sessionKey ∈ (initialState 0).sessionOptions :=
  ⟨ReachableStore.init 0, sessionKey_mem_sessionOptions (ReachableStore.init 0)⟩

end OpenClaw
